import Mathlib

/-!
Verification of the adaptive-health conversational backend.

The development shallowly embeds `src/backend/src/main.py` and
`src/backend/src/utils.py`.  External collaborators (the Postgres-backed
context store, the checkpoint store, the LLM backends, the clock and the
UUID generator) are modelled as explicit state and parameters:

* the Context Store's two namespaces become association lists
  (`rateLimits` keyed by store key, `contextItems` as
  (namespace, key, value) triples);
* the Checkpoint Store becomes an association list from thread id to the
  thread's message list;
* `datetime.utcnow()` becomes a `now : Nat` parameter (seconds);
* `uuid.uuid4()` becomes a `newKey : String` parameter;
* a model backend invocation becomes a parameter
  `llm : List Message → Except String String`, whose `error` case is the
  Python exception (carrying `str(e)`);
* the similarity search inside `get_stored_context` becomes an
  `Except String (List UserContextItem)` outcome parameter, whose `error`
  case is a store failure.

Endpoints are pure functions from a request and a database to a response
(mirroring the JSON bodies of `main.py`) and the database after the call.
-/

namespace AdaptiveHealth

/-- LangChain message kinds relevant to `main.py`: `HumanMessage`,
`AIMessage`, `SystemMessage`, and everything else (e.g. `ToolMessage`),
collapsed into one `tool` constructor. -/
inductive MsgType where
  | human
  | ai
  | system
  | tool
  deriving DecidableEq

/-- One message of a conversation thread. -/
structure Message where
  type : MsgType
  content : String
  deriving DecidableEq

/-- The value written into the `("rate_limits",)` namespace by
`chat_endpoint` (lines 341-350 of `main.py`). Timestamps are seconds. -/
structure RateLimitRecord where
  user_id : String
  conversation_length : Nat
  expires_at : Nat
  set_at : Nat
  deriving DecidableEq

/-- The value written into the `(user_id,)` namespace by `chat_endpoint`
(lines 322-330 of `main.py`). -/
structure UserContextItem where
  data : String
  timestamp : Nat
  session_id : String
  deriving DecidableEq

/-- The external stores: the `("rate_limits",)` namespace as
(key, record) pairs, the per-user context namespaces as
(namespace, key, item) triples, and the checkpointer's threads as
(thread id, messages) pairs. -/
structure DB where
  rateLimits : List (String × RateLimitRecord)
  contextItems : List (String × String × UserContextItem)
  threads : List (String × List Message)
  deriving DecidableEq

/-- Model of `store.search(("rate_limits",), filter={"user_id": user_id})`:
all records in the rate-limit namespace whose value's `user_id` field
matches. -/
def searchRateLimits (db : DB) (uid : String) : List (String × RateLimitRecord) :=
  db.rateLimits.filter (fun p => p.2.user_id == uid)

/-- Model of `store.delete(namespace=("rate_limits",), key=key)`. -/
def deleteRateLimit (db : DB) (key : String) : DB :=
  { db with rateLimits := db.rateLimits.filter (fun p => p.1 != key) }

/-- Model of `store.put(namespace=("rate_limits",), key=key, value=rec)` (upsert). -/
def putRateLimit (db : DB) (key : String) (rec : RateLimitRecord) : DB :=
  { db with rateLimits := (key, rec) :: db.rateLimits.filter (fun p => p.1 != key) }

/-- Read back the rate-limit record stored under `key`. -/
def lookupRateLimit (db : DB) (key : String) : Option RateLimitRecord :=
  (db.rateLimits.find? (fun p => p.1 == key)).map Prod.snd

/-- Model of `store.search((user_id,))` with no query and no explicit limit,
modelled per the spec's Context Store contract as enumerating every
(key, item) pair of the user's namespace. -/
def userItemsOf (db : DB) (uid : String) : List (String × UserContextItem) :=
  (db.contextItems.filter (fun t => t.1 == uid)).map (fun t => t.2)

/-- Model of `store.delete(namespace=(uid,), key=key)`. -/
def deleteContextItem (db : DB) (uid key : String) : DB :=
  { db with contextItems :=
      db.contextItems.filter (fun t => !(t.1 == uid && t.2.1 == key)) }

/-- Model of `store.put(namespace=(uid,), key=key, value=item)` (upsert). -/
def putContextItem (db : DB) (uid key : String) (item : UserContextItem) : DB :=
  { db with contextItems :=
      (uid, key, item) :: db.contextItems.filter (fun t => !(t.1 == uid && t.2.1 == key)) }

/-- The checkpointer's latest view of a thread: `None` when no checkpoint
exists for the thread id. -/
def lookupThread (db : DB) (sid : String) : Option (List Message) :=
  (db.threads.find? (fun p => p.1 == sid)).map Prod.snd

/-- Durably persist a thread's full message sequence (graph execution
with a checkpointer). -/
def setThread (db : DB) (sid : String) (msgs : List Message) : DB :=
  { db with threads := (sid, msgs) :: db.threads.filter (fun p => p.1 != sid) }

/-- Model of `checkpointer.delete_thread(thread_id=sid)`. -/
def deleteThread (db : DB) (sid : String) : DB :=
  { db with threads := db.threads.filter (fun p => p.1 != sid) }

/-- Python's `str.lower()`, modelled character-wise. -/
def pyLower (s : String) : String :=
  { data := s.data.map Char.toLower }

/-!  `utils.py`: the chat graph. -/

/-- The graph state `ChatState(MessagesState)` of `utils.py`. -/
structure ChatState where
  messages : List Message
  model_type : String
  deriving DecidableEq

/-- Function `route_model` of `utils.py` (lines 11-15). -/
def route_model (state : ChatState) : String :=
  if "claude" == pyLower state.model_type then "claude_chat" else "gpt_chat"

/-- The nodes of the workflow built by `create_chat_graph`, plus the
implicit entry point and `END`. -/
inductive GraphNode where
  | entry
  | gpt_chat
  | claude_chat
  | done
  deriving DecidableEq

/-- The conditional entry point of `create_chat_graph`: the router's
string is looked up in the mapping passed to
`set_conditional_entry_point`; an unmapped string stays at `entry`
(unreachable, since `route_model` only returns the two mapped names). -/
def conditionalEntry (state : ChatState) : GraphNode :=
  if route_model state == "gpt_chat" then GraphNode.gpt_chat
  else if route_model state == "claude_chat" then GraphNode.claude_chat
  else GraphNode.entry

/-- The transition function of the workflow built by `create_chat_graph`:
conditional entry, then `add_edge("gpt_chat", END)` and
`add_edge("claude_chat", END)`. -/
def graphTransition (state : ChatState) : GraphNode → GraphNode
  | GraphNode.entry => conditionalEntry state
  | GraphNode.gpt_chat => GraphNode.done
  | GraphNode.claude_chat => GraphNode.done
  | GraphNode.done => GraphNode.done

/-- The store-side similarity search issued by `get_stored_context`
(`store.search((user_id,), query=query, limit=limit)`). The store's
relevance ranking is opaque (external to the repository), so it is a
parameter `rank`; the store returns at most `limit` matched items from
the user's namespace. -/
def storeSimilaritySearch (db : DB) (uid : String)
    (rank : List (String × UserContextItem) → List (String × UserContextItem))
    (limit : Nat) : List UserContextItem :=
  ((rank (userItemsOf db uid)).take limit).map (fun p => p.2)

/-- Function `get_stored_context` of `utils.py` (lines 63-78): on a successful
search, the `data` field of each matched item; on any store failure, the
exception is swallowed and the empty list returned. -/
def get_stored_context (searchOutcome : Except String (List UserContextItem)) :
    List String :=
  match searchOutcome with
  | Except.ok items => items.map (fun item => item.data)
  | Except.error _ => []

/-!  `main.py`: the endpoints. -/

/-- The body of a `POST /chat` request; a `none` field is an absent key. -/
structure ChatRequest where
  message : Option String
  model : Option String
  session_id : Option String
  user_id : Option String
  deriving DecidableEq

/-- Python falsiness of an optional string (`if not x`): absent or empty. -/
def isBlank : Option String → Bool
  | none => true
  | some s => s.isEmpty

/-- The JSON body and status code returned by `chat_endpoint`; fields
absent from a branch's body are `none`. -/
structure ChatResponse where
  status_code : Nat
  status : String
  error : Option String := none
  detail : Option String := none
  message : Option String := none
  session_id : Option String := none
  user_id : Option String := none
  model : Option String := none
  conversation_length : Option Nat := none
  context_items_found : Option Nat := none
  rate_limited : Option Bool := none
  expires_at : Option Nat := none
  deriving DecidableEq

/-- Model of the joined bullet list built at line 301 of `main.py`. -/
def bulletLines (relevant_context : List String) : String :=
  String.intercalate "\n" (relevant_context.map (fun ctx => "- " ++ ctx))

/-- Lines 298-307 of `main.py`: the enriched prompt. -/
def enhanceMessage (relevant_context : List String) (message : String) : String :=
  if relevant_context.isEmpty then message
  else
    "Previous relevant context:\n" ++ bulletLines relevant_context ++
      "\n\nCurrent question: " ++ message

/-- Lines 295-378 of `main.py`: the body of `chat_endpoint` after the
rate-limit block — context retrieval, enrichment, graph invocation
(which loads the prior thread, appends the enriched `HumanMessage`, lets
the selected model append its reply, and checkpoints the result), context
persistence, rate-limit application and response building.  An exception
from the model backend is caught by the handler at lines 368-378. -/
def chatProceed (uid sid msg model_type : String) (db : DB) (now : Nat)
    (ctxOutcome : Except String (List UserContextItem))
    (llm : List Message → Except String String)
    (newKey : String) : ChatResponse × DB :=
  let relevant_context := get_stored_context ctxOutcome
  let enhanced_message := enhanceMessage relevant_context msg
  let prior := (lookupThread db sid).getD []
  let inputThread := prior ++ [{ type := MsgType.human, content := enhanced_message }]
  match llm inputThread with
  | Except.error e =>
      ({ status_code := 500, status := "error",
         error := some "An error occurred during chat",
         detail := some e, rate_limited := some false }, db)
  | Except.ok reply =>
      let newThread := inputThread ++ [{ type := MsgType.ai, content := reply }]
      let db1 := setThread db sid newThread
      let db2 := putContextItem db1 uid newKey
        { data := msg, timestamp := now, session_id := sid }
      let conversation_length := newThread.length
      if 10 < conversation_length then
        let expires := now + 4 * 3600
        let db3 := putRateLimit db2 uid
          { user_id := uid, conversation_length := conversation_length,
            expires_at := expires, set_at := now }
        ({ status_code := 200, status := "success",
           message := some reply, session_id := some sid, user_id := some uid,
           model := some model_type,
           conversation_length := some conversation_length,
           context_items_found := some relevant_context.length,
           rate_limited := some true, expires_at := some expires }, db3)
      else
        ({ status_code := 200, status := "success",
           message := some reply, session_id := some sid, user_id := some uid,
           model := some model_type,
           conversation_length := some conversation_length,
           context_items_found := some relevant_context.length,
           rate_limited := some false, expires_at := none }, db2)

/-- Lines 270-296 of `main.py`: the rate-limit block of `chat_endpoint` —
search the rate-limit namespace for the user, reject with 429 carrying
the truncated remaining time and the record's `conversation_length` while
the record is unexpired, lazily delete a stale record, then fall through
to the rest of the turn (`chatProceed`). -/
def chatRateLimitStage (uid sid msg model_type : String) (db : DB) (now : Nat)
    (ctxOutcome : Except String (List UserContextItem))
    (llm : List Message → Except String String)
    (newKey : String) : ChatResponse × DB :=
  match searchRateLimits db uid with
  | (_, rec) :: _ =>
      if now < rec.expires_at then
        let time_remaining := rec.expires_at - now
        let hours_remaining := time_remaining / 3600
        let minutes_remaining := time_remaining % 3600 / 60
        ({ status_code := 429, status := "error",
           error := some ("Rate limit exceeded. Try again in " ++
             toString hours_remaining ++ " hours and " ++
             toString minutes_remaining ++ " minutes."),
           rate_limited := some true,
           expires_at := some rec.expires_at,
           conversation_length := some rec.conversation_length }, db)
      else
        chatProceed uid sid msg model_type (deleteRateLimit db uid) now
          ctxOutcome llm newKey
  | [] => chatProceed uid sid msg model_type db now ctxOutcome llm newKey

/-- Function `chat_endpoint` of `main.py` (lines 187-378): field extraction with
`model` defaulting to `"gpt"` and lower-cased, the five validation checks
in order, then the rate-limit block and the rest of the turn. -/
def chat_endpoint (data : ChatRequest) (db : DB) (now : Nat)
    (ctxOutcome : Except String (List UserContextItem))
    (llm : List Message → Except String String)
    (newKey : String) : ChatResponse × DB :=
  let message := data.message
  let model_type := pyLower (data.model.getD "gpt")
  let session_id := data.session_id
  let user_id := data.user_id
  if isBlank user_id then
    ({ status_code := 400, status := "error",
       error := some "user_id is required" }, db)
  else if isBlank message then
    ({ status_code := 400, status := "error",
       error := some "message is required" }, db)
  else if isBlank session_id then
    ({ status_code := 400, status := "error",
       error := some "session_id is required" }, db)
  else if !(model_type == "gpt" || model_type == "claude") then
    ({ status_code := 400, status := "error",
       error := some "model must be \x27gpt\x27 or \x27claude\x27" }, db)
  else if 10000 < (message.getD "").length then
    ({ status_code := 400, status := "error",
       error := some "Message too long (max 10,000 characters)" }, db)
  else
    chatRateLimitStage (user_id.getD "") (session_id.getD "") (message.getD "")
      model_type db now ctxOutcome llm newKey

/-- One role-tagged entry of a `GET /history` response. -/
structure HistoryEntry where
  role : String
  content : String
  deriving DecidableEq

/-- The `isinstance` dispatch of `get_history_endpoint` (lines 440-446):
`HumanMessage`, `AIMessage` and `SystemMessage` are formatted; any other
message type falls through every branch and is appended nowhere. -/
def formatMessage (m : Message) : Option HistoryEntry :=
  match m.type with
  | MsgType.human => some { role := "user", content := m.content }
  | MsgType.ai => some { role := "assistant", content := m.content }
  | MsgType.system => some { role := "system", content := m.content }
  | MsgType.tool => none

/-- The JSON body and status code returned by `get_history_endpoint`. -/
structure HistoryResponse where
  status_code : Nat
  status : String
  error : Option String := none
  messages : Option (List HistoryEntry) := none
  session_id : Option String := none
  conversation_length : Option Nat := none
  deriving DecidableEq

/-- Function `get_history_endpoint` of `main.py` (lines 388-466): reads the most
recent checkpoint of the thread; no checkpoint yields the empty history;
otherwise the messages are formatted and counted. -/
def get_history_endpoint (session_id : Option String) (db : DB) : HistoryResponse :=
  if isBlank session_id then
    { status_code := 400, status := "error", error := some "session_id is required" }
  else
    let sid := session_id.getD ""
    match lookupThread db sid with
    | none =>
        { status_code := 200, status := "success", messages := some [],
          session_id := some sid, conversation_length := some 0 }
    | some all_messages =>
        let formatted_messages := all_messages.filterMap formatMessage
        { status_code := 200, status := "success",
          messages := some formatted_messages, session_id := some sid,
          conversation_length := some formatted_messages.length }

/-- The JSON body and status code returned by `clear_history_endpoint`. -/
structure ClearHistoryResponse where
  status_code : Nat
  status : String
  error : Option String := none
  message : Option String := none
  session_id : Option String := none
  rate_limited : Option Bool := none
  expires_at : Option Nat := none
  deriving DecidableEq

/-- Function `clear_history_endpoint` of `main.py` (lines 475-545): `user_id`
comes from the verified token; the same rate-limit block as
`chat_endpoint` guards the deletion, refusing with 429 while limited and
lazily deleting a stale record, then the whole thread is deleted. -/
def clear_history_endpoint (session_id : Option String) (auth_uid : String)
    (db : DB) (now : Nat) : ClearHistoryResponse × DB :=
  if isBlank session_id then
    ({ status_code := 400, status := "error",
       error := some "session_id is required" }, db)
  else
    let sid := session_id.getD ""
    match searchRateLimits db auth_uid with
    | (_, rec) :: _ =>
        if now < rec.expires_at then
          ({ status_code := 429, status := "error",
             error := some "Cannot clear history while rate limited.",
             rate_limited := some true,
             expires_at := some rec.expires_at }, db)
        else
          let db1 := deleteRateLimit db auth_uid
          let db2 := deleteThread db1 sid
          ({ status_code := 200, status := "success",
             message := some "Session history cleared",
             session_id := some sid, rate_limited := some false }, db2)
    | [] =>
        let db2 := deleteThread db sid
        ({ status_code := 200, status := "success",
           message := some "Session history cleared",
           session_id := some sid, rate_limited := some false }, db2)

/-- The JSON body and status code returned by `clear_user_data_endpoint`. -/
structure ClearUserDataResponse where
  status_code : Nat
  status : String
  error : Option String := none
  message : Option String := none
  user_id : Option String := none
  deleted_count : Option Nat := none
  deriving DecidableEq

/-- Function `clear_user_data_endpoint` of `main.py` (lines 555-617): materialise
the user's items (`store.search((user_id,))`, modelled per the spec's
store contract as the whole namespace), delete each one counting as it
goes, and report the count. -/
def clear_user_data_endpoint (user_id : Option String) (db : DB) :
    ClearUserDataResponse × DB :=
  if isBlank user_id then
    ({ status_code := 400, status := "error",
       error := some "user_id is required" }, db)
  else
    let uid := user_id.getD ""
    let items := userItemsOf db uid
    let final := items.foldl
      (fun acc item => (deleteContextItem acc.1 uid item.1, acc.2 + 1)) (db, 0)
    ({ status_code := 200, status := "success",
       message := some ("Cleared " ++ toString final.2 ++ " stored items for user"),
       user_id := some uid, deleted_count := some final.2 }, final.1)

/-- The five validation checks of `chat_endpoint` as one predicate
(it holds exactly when control reaches the store-backed part). -/
def passesValidation (data : ChatRequest) : Prop :=
  isBlank data.user_id = false ∧ isBlank data.message = false ∧
    isBlank data.session_id = false ∧
    (pyLower (data.model.getD "gpt") = "gpt" ∨
      pyLower (data.model.getD "gpt") = "claude") ∧
    (data.message.getD "").length ≤ 10000

instance (data : ChatRequest) : Decidable (passesValidation data) := by
  unfold passesValidation; infer_instance

/-!  Helper lemmas shared by several developments below. -/

/-- Under the five validation checks, `chat_endpoint` reaches its
rate-limit block. -/
theorem chat_endpoint_valid (msg : String) (m : Option String) (sid uid : String)
    (db : DB) (now : Nat) (ctxOutcome : Except String (List UserContextItem))
    (llm : List Message → Except String String) (newKey : String)
    (hu : uid.isEmpty = false) (hm : msg.isEmpty = false) (hs : sid.isEmpty = false)
    (hmt : pyLower (m.getD "gpt") = "gpt" ∨ pyLower (m.getD "gpt") = "claude")
    (hlen : msg.length ≤ 10000) :
    chat_endpoint
        { message := some msg, model := m, session_id := some sid, user_id := some uid }
        db now ctxOutcome llm newKey =
      chatRateLimitStage uid sid msg (pyLower (m.getD "gpt")) db now
        ctxOutcome llm newKey := by
  have h4 : (pyLower (m.getD "gpt") == "gpt" || pyLower (m.getD "gpt") == "claude")
      = true := by
    rcases hmt with h | h <;> simp [h]
  simp [chat_endpoint, isBlank, hu, hm, hs, h4, Nat.not_lt.2 hlen]

/-- The checkpointer sees exactly the thread most recently persisted
under a thread id. -/
theorem lookupThread_setThread (db : DB) (sid : String) (t : List Message) :
    lookupThread (setThread db sid t) sid = some t := by
  simp [lookupThread, setThread]

/-- Deleting a thread makes the checkpointer report no thread at all. -/
theorem lookupThread_deleteThread (db : DB) (sid : String) :
    lookupThread (deleteThread db sid) sid = none := by
  have h : List.find? (fun p => p.1 == sid)
      (List.filter (fun p => p.1 != sid) db.threads) = none := by
    rw [List.find?_eq_none]
    intro x hx
    rcases List.mem_filter.1 hx with ⟨-, hne⟩
    simpa using bne_iff_ne.1 hne
  simp [lookupThread, deleteThread, h]

/-!  The claims. -/

/-- C6: for every `ConversationState`, the Model Router's entry
transition sends `model_type` equal to `"claude"` under case-insensitive
comparison to the `claude_chat` state, and every other value to the
`gpt_chat` state; both states transition unconditionally to the terminal
`done` state, and the result is deterministic given identical state. -/
theorem C6_model_router_routing (state : ChatState) :
    (pyLower state.model_type = "claude" →
      graphTransition state GraphNode.entry = GraphNode.claude_chat) ∧
    (pyLower state.model_type ≠ "claude" →
      graphTransition state GraphNode.entry = GraphNode.gpt_chat) ∧
    graphTransition state GraphNode.gpt_chat = GraphNode.done ∧
    graphTransition state GraphNode.claude_chat = GraphNode.done ∧
    graphTransition state GraphNode.done = GraphNode.done ∧
    (∀ state2 : ChatState, state = state2 →
      graphTransition state GraphNode.entry = graphTransition state2 GraphNode.entry) := by
  refine ⟨?_, ?_, rfl, rfl, rfl, ?_⟩
  · intro h
    simp [graphTransition, conditionalEntry, route_model, h]
  · intro h
    have hne : "claude" ≠ pyLower state.model_type := fun hc => h hc.symm
    simp [graphTransition, conditionalEntry, route_model, hne]
  · intro state2 h
    rw [h]

/-- Witness for C6 at concrete states: `"Claude"` (mixed case) reaches
the claude branch, `"llama"` reaches the gpt branch, and both model
states reach `done`. -/
theorem C6_witness :
    graphTransition { messages := [], model_type := "Claude" } GraphNode.entry =
        GraphNode.claude_chat ∧
    graphTransition { messages := [], model_type := "llama" } GraphNode.entry =
        GraphNode.gpt_chat ∧
    graphTransition { messages := [], model_type := "llama" } GraphNode.gpt_chat =
        GraphNode.done ∧
    graphTransition { messages := [], model_type := "Claude" } GraphNode.claude_chat =
        GraphNode.done :=
  ⟨(C6_model_router_routing _).1 (by decide),
   (C6_model_router_routing _).2.1 (by decide),
   (C6_model_router_routing _).2.2.1,
   (C6_model_router_routing _).2.2.2.1⟩

/-- C7: for every user, query and limit, context retrieval returns a
finite sequence of at most `limit` text snippets, and on any store
failure it returns the empty sequence rather than propagating the
error. -/
theorem C7_context_retrieval_bounded_and_absorbing (db : DB) (uid : String)
    (rank : List (String × UserContextItem) → List (String × UserContextItem))
    (limit : Nat) (e : String) :
    get_stored_context (Except.error e) = [] ∧
    (get_stored_context
        (Except.ok (storeSimilaritySearch db uid rank limit))).length ≤ limit := by
  constructor
  · rfl
  · simp only [get_stored_context, storeSimilaritySearch, List.length_map]
    exact List.length_take_le _ _

/-- C10: for every persisted thread, `get_history` includes only
messages whose type is user, assistant, or system; any other message
type is silently omitted, and the reported `conversation_length` equals
the number of returned entries, which is at most (and can be smaller
than) the number of messages stored in the thread. -/
theorem C10_history_filters_message_types (db : DB) (sid : String)
    (msgs : List Message) (hs : sid.isEmpty = false)
    (h : lookupThread db sid = some msgs) :
    get_history_endpoint (some sid) db =
      { status_code := 200, status := "success",
        messages := some (msgs.filterMap formatMessage),
        session_id := some sid,
        conversation_length := some (msgs.filterMap formatMessage).length } ∧
    (msgs.filterMap formatMessage).length ≤ msgs.length ∧
    (∀ m : Message, m.type = MsgType.human →
      formatMessage m = some { role := "user", content := m.content }) ∧
    (∀ m : Message, m.type = MsgType.ai →
      formatMessage m = some { role := "assistant", content := m.content }) ∧
    (∀ m : Message, m.type = MsgType.system →
      formatMessage m = some { role := "system", content := m.content }) ∧
    (∀ m : Message, m.type = MsgType.tool → formatMessage m = none) := by
  refine ⟨?_, List.length_filterMap_le _ _, ?_, ?_, ?_, ?_⟩
  · simp [get_history_endpoint, isBlank, hs, h]
  all_goals intro m hm
  all_goals simp [formatMessage, hm]

/-- Witness for C10: a stored thread of three messages, one of them a
tool message, yields a two-entry history with `conversation_length` 2. -/
theorem C10_witness :
    get_history_endpoint (some "s1")
        { rateLimits := [], contextItems := [],
          threads := [("s1",
            [{ type := MsgType.human, content := "A" },
             { type := MsgType.tool, content := "T" },
             { type := MsgType.ai, content := "B" }])] } =
      { status_code := 200, status := "success",
        messages := some
          [{ role := "user", content := "A" },
           { role := "assistant", content := "B" }],
        session_id := some "s1", conversation_length := some 2 } := by
  exact (C10_history_filters_message_types _ "s1"
    [{ type := MsgType.human, content := "A" },
     { type := MsgType.tool, content := "T" },
     { type := MsgType.ai, content := "B" }] (by decide) (by decide)).1

/-- A chat request failing any validation check gets a response that
does not depend on the stores and leaves them untouched. -/
theorem chat_endpoint_invalid (data : ChatRequest) (db db2 : DB) (now : Nat)
    (ctxOutcome : Except String (List UserContextItem))
    (llm : List Message → Except String String) (newKey : String)
    (hfail : ¬ passesValidation data) :
    (chat_endpoint data db now ctxOutcome llm newKey).1 =
      (chat_endpoint data db2 now ctxOutcome llm newKey).1 ∧
    (chat_endpoint data db now ctxOutcome llm newKey).2 = db := by
  cases h1 : isBlank data.user_id with
  | true => constructor <;> simp [chat_endpoint, h1]
  | false =>
    cases h2 : isBlank data.message with
    | true => constructor <;> simp [chat_endpoint, h1, h2]
    | false =>
      cases h3 : isBlank data.session_id with
      | true => constructor <;> simp [chat_endpoint, h1, h2, h3]
      | false =>
        cases h4 : (pyLower (data.model.getD "gpt") == "gpt" ||
            pyLower (data.model.getD "gpt") == "claude") with
        | false => constructor <;> simp [chat_endpoint, h1, h2, h3, h4]
        | true =>
          by_cases h5 : 10000 < (data.message.getD "").length
          · constructor <;> simp [chat_endpoint, h1, h2, h3, h4, h5]
          · exfalso
            apply hfail
            simp only [Bool.or_eq_true, beq_iff_eq] at h4
            exact ⟨h1, h2, h3, h4, Nat.not_lt.1 h5⟩

/-- C4: for every chat request, validation is checked in the fixed order
user_id present, message present, session_id present, model in
{gpt, claude} case-insensitively, message length at most 10000; the
first failing check determines the error returned, and when any check
fails the stores are neither read (the response is the same for every
database) nor written. -/
theorem C4_validation_first_failure_wins (data : ChatRequest) (db db2 : DB)
    (now : Nat) (ctxOutcome : Except String (List UserContextItem))
    (llm : List Message → Except String String) (newKey : String) :
    (isBlank data.user_id = true →
      chat_endpoint data db now ctxOutcome llm newKey =
        ({ status_code := 400, status := "error",
           error := some "user_id is required" }, db)) ∧
    (isBlank data.user_id = false → isBlank data.message = true →
      chat_endpoint data db now ctxOutcome llm newKey =
        ({ status_code := 400, status := "error",
           error := some "message is required" }, db)) ∧
    (isBlank data.user_id = false → isBlank data.message = false →
      isBlank data.session_id = true →
      chat_endpoint data db now ctxOutcome llm newKey =
        ({ status_code := 400, status := "error",
           error := some "session_id is required" }, db)) ∧
    (isBlank data.user_id = false → isBlank data.message = false →
      isBlank data.session_id = false →
      pyLower (data.model.getD "gpt") ≠ "gpt" →
      pyLower (data.model.getD "gpt") ≠ "claude" →
      chat_endpoint data db now ctxOutcome llm newKey =
        ({ status_code := 400, status := "error",
           error := some "model must be \x27gpt\x27 or \x27claude\x27" }, db)) ∧
    (isBlank data.user_id = false → isBlank data.message = false →
      isBlank data.session_id = false →
      (pyLower (data.model.getD "gpt") = "gpt" ∨
        pyLower (data.model.getD "gpt") = "claude") →
      10000 < (data.message.getD "").length →
      chat_endpoint data db now ctxOutcome llm newKey =
        ({ status_code := 400, status := "error",
           error := some "Message too long (max 10,000 characters)" }, db)) ∧
    (¬ passesValidation data →
      (chat_endpoint data db now ctxOutcome llm newKey).1 =
        (chat_endpoint data db2 now ctxOutcome llm newKey).1 ∧
      (chat_endpoint data db now ctxOutcome llm newKey).2 = db) := by
  refine ⟨?_, ?_, ?_, ?_, ?_, ?_⟩
  · intro h1
    simp [chat_endpoint, h1]
  · intro h1 h2
    simp [chat_endpoint, h1, h2]
  · intro h1 h2 h3
    simp [chat_endpoint, h1, h2, h3]
  · intro h1 h2 h3 hne1 hne2
    have h4 : (pyLower (data.model.getD "gpt") == "gpt" ||
        pyLower (data.model.getD "gpt") == "claude") = false := by
      simp [hne1, hne2]
    simp [chat_endpoint, h1, h2, h3, h4]
  · intro h1 h2 h3 hmt h5
    have h4 : (pyLower (data.model.getD "gpt") == "gpt" ||
        pyLower (data.model.getD "gpt") == "claude") = true := by
      rcases hmt with h | h <;> simp [h]
    simp [chat_endpoint, h1, h2, h3, h4, h5]
  · exact chat_endpoint_invalid data db db2 now ctxOutcome llm newKey

/-- Witness for C4: a request without `user_id` is rejected by the first
check, and a request with model `"llama"` by the model check, each
leaving the database unchanged. -/
theorem C4_witness :
    chat_endpoint
        { message := some "hi", model := some "gpt",
          session_id := some "s1", user_id := none }
        { rateLimits := [], contextItems := [], threads := [] } 0 (Except.ok [])
        (fun _ => Except.ok "r") "k" =
      ({ status_code := 400, status := "error",
         error := some "user_id is required" },
       { rateLimits := [], contextItems := [], threads := [] }) ∧
    chat_endpoint
        { message := some "hi", model := some "llama",
          session_id := some "s1", user_id := some "u1" }
        { rateLimits := [], contextItems := [], threads := [] } 0 (Except.ok [])
        (fun _ => Except.ok "r") "k" =
      ({ status_code := 400, status := "error",
         error := some "model must be \x27gpt\x27 or \x27claude\x27" },
       { rateLimits := [], contextItems := [], threads := [] }) :=
  ⟨(C4_validation_first_failure_wins _ _
      { rateLimits := [], contextItems := [], threads := [] } _ _ _ _).1 rfl,
   (C4_validation_first_failure_wins _ _
      { rateLimits := [], contextItems := [], threads := [] } _ _ _ _).2.2.2.1
     rfl rfl rfl (by decide) (by decide)⟩

/-- C2: for every validated chat request by a user holding a rate-limit
record: while `now < expires_at` the outcome is a 429 rate-limited
response carrying the remaining wait time with hours and minutes
truncated and the record's `conversation_length`, the stores are
unchanged, and neither the context-retrieval outcome, the model backend
nor the fresh key are consulted; once `now >= expires_at` the record is
deleted as a side effect and the turn proceeds on the purged database as
if no record existed. -/
theorem C2_rate_limit_check_gates_turn (msg : String) (m : Option String)
    (sid uid : String) (db : DB) (now : Nat)
    (ctx ctx' : Except String (List UserContextItem))
    (llm llm' : List Message → Except String String) (newKey newKey' : String)
    (k0 : String) (rec : RateLimitRecord)
    (rest : List (String × RateLimitRecord))
    (hu : uid.isEmpty = false) (hm : msg.isEmpty = false)
    (hs : sid.isEmpty = false)
    (hmt : pyLower (m.getD "gpt") = "gpt" ∨ pyLower (m.getD "gpt") = "claude")
    (hlen : msg.length ≤ 10000)
    (hfind : searchRateLimits db uid = (k0, rec) :: rest) :
    (now < rec.expires_at →
      chat_endpoint
          { message := some msg, model := m, session_id := some sid,
            user_id := some uid } db now ctx llm newKey =
        ({ status_code := 429, status := "error",
           error := some ("Rate limit exceeded. Try again in " ++
             toString ((rec.expires_at - now) / 3600) ++ " hours and " ++
             toString ((rec.expires_at - now) % 3600 / 60) ++ " minutes."),
           rate_limited := some true, expires_at := some rec.expires_at,
           conversation_length := some rec.conversation_length }, db) ∧
      chat_endpoint
          { message := some msg, model := m, session_id := some sid,
            user_id := some uid } db now ctx llm newKey =
        chat_endpoint
          { message := some msg, model := m, session_id := some sid,
            user_id := some uid } db now ctx' llm' newKey') ∧
    (rec.expires_at ≤ now →
      chat_endpoint
          { message := some msg, model := m, session_id := some sid,
            user_id := some uid } db now ctx llm newKey =
        chatProceed uid sid msg (pyLower (m.getD "gpt"))
          (deleteRateLimit db uid) now ctx llm newKey) ∧
    (rec.expires_at ≤ now → searchRateLimits (deleteRateLimit db uid) uid = [] →
      chat_endpoint
          { message := some msg, model := m, session_id := some sid,
            user_id := some uid } db now ctx llm newKey =
        chat_endpoint
          { message := some msg, model := m, session_id := some sid,
            user_id := some uid } (deleteRateLimit db uid) now ctx llm newKey) := by
  have hv : ∀ (d : DB) (c : Except String (List UserContextItem))
      (l : List Message → Except String String) (k : String),
      chat_endpoint
          { message := some msg, model := m, session_id := some sid,
            user_id := some uid } d now c l k =
        chatRateLimitStage uid sid msg (pyLower (m.getD "gpt")) d now c l k :=
    fun d c l k => chat_endpoint_valid msg m sid uid d now c l k hu hm hs hmt hlen
  refine ⟨?_, ?_, ?_⟩
  · intro hlt
    constructor
    · rw [hv]
      simp [chatRateLimitStage, hfind, hlt]
    · rw [hv, hv]
      simp [chatRateLimitStage, hfind, hlt]
  · intro hge
    rw [hv]
    have hnlt : ¬ now < rec.expires_at := Nat.not_lt.2 hge
    simp [chatRateLimitStage, hfind, hnlt]
  · intro hge hempty
    rw [hv, hv]
    have hnlt : ¬ now < rec.expires_at := Nat.not_lt.2 hge
    simp [chatRateLimitStage, hfind, hnlt, hempty]

/-- Witness for C2: a user limited until t=10000 is rejected at t=50
with wait 2 hours 45 minutes and conversation length 12; at t=20000 the
stale record is deleted and the turn proceeds. -/
theorem C2_witness :
    chat_endpoint
        { message := some "hi", model := some "gpt",
          session_id := some "s1", user_id := some "u1" }
        { rateLimits :=
            [("u1", { user_id := "u1", conversation_length := 12,
                      expires_at := 10000, set_at := 0 })],
          contextItems := [], threads := [] } 50 (Except.ok [])
        (fun _ => Except.ok "r") "k" =
      ({ status_code := 429, status := "error",
         error := some
           "Rate limit exceeded. Try again in 2 hours and 45 minutes.",
         rate_limited := some true, expires_at := some 10000,
         conversation_length := some 12 },
       { rateLimits :=
           [("u1", { user_id := "u1", conversation_length := 12,
                     expires_at := 10000, set_at := 0 })],
         contextItems := [], threads := [] }) ∧
    chat_endpoint
        { message := some "hi", model := some "gpt",
          session_id := some "s1", user_id := some "u1" }
        { rateLimits :=
            [("u1", { user_id := "u1", conversation_length := 12,
                      expires_at := 10000, set_at := 0 })],
          contextItems := [], threads := [] } 20000 (Except.ok [])
        (fun _ => Except.ok "r") "k" =
      chat_endpoint
        { message := some "hi", model := some "gpt",
          session_id := some "s1", user_id := some "u1" }
        { rateLimits := [], contextItems := [], threads := [] } 20000
        (Except.ok []) (fun _ => Except.ok "r") "k" := by
  constructor
  · exact ((C2_rate_limit_check_gates_turn "hi" (some "gpt") "s1" "u1" _ 50
      (Except.ok []) (Except.ok []) (fun _ => Except.ok "r")
      (fun _ => Except.ok "r") "k" "k" "u1"
      { user_id := "u1", conversation_length := 12,
        expires_at := 10000, set_at := 0 } []
      rfl rfl rfl (Or.inl rfl) (by decide) (by decide)).1 (by decide)).1
  · exact ((C2_rate_limit_check_gates_turn "hi" (some "gpt") "s1" "u1" _ 20000
      (Except.ok []) (Except.ok []) (fun _ => Except.ok "r")
      (fun _ => Except.ok "r") "k" "k" "u1"
      { user_id := "u1", conversation_length := 12,
        expires_at := 10000, set_at := 0 } []
      rfl rfl rfl (Or.inl rfl) (by decide) (by decide)).2.2 (by decide) (by decide))

/-- Characterisation of the post-gate turn body when the selected model
replies: the thread is extended by the enriched user message and the
reply, the original message is persisted under the fresh key, and the
rate limit is applied exactly when the new thread exceeds 10 messages. -/
theorem chatProceed_ok (uid sid msg mt : String) (db : DB) (now : Nat)
    (ctx : Except String (List UserContextItem))
    (llm : List Message → Except String String) (newKey reply : String)
    (hllm : llm ((lookupThread db sid).getD [] ++
        [{ type := MsgType.human,
           content := enhanceMessage (get_stored_context ctx) msg }]) =
      Except.ok reply) :
    chatProceed uid sid msg mt db now ctx llm newKey =
      (let newThread := (lookupThread db sid).getD [] ++
        [{ type := MsgType.human,
           content := enhanceMessage (get_stored_context ctx) msg },
         { type := MsgType.ai, content := reply }]
      let db2 := putContextItem (setThread db sid newThread) uid newKey
        { data := msg, timestamp := now, session_id := sid }
      if 10 < newThread.length then
        ({ status_code := 200, status := "success",
           message := some reply, session_id := some sid, user_id := some uid,
           model := some mt, conversation_length := some newThread.length,
           context_items_found := some (get_stored_context ctx).length,
           rate_limited := some true, expires_at := some (now + 4 * 3600) },
         putRateLimit db2 uid
           { user_id := uid, conversation_length := newThread.length,
             expires_at := now + 4 * 3600, set_at := now })
      else
        ({ status_code := 200, status := "success",
           message := some reply, session_id := some sid, user_id := some uid,
           model := some mt, conversation_length := some newThread.length,
           context_items_found := some (get_stored_context ctx).length,
           rate_limited := some false, expires_at := none }, db2)) := by
  simp [chatProceed, hllm, List.append_assoc]

/-- Writing a rate-limit record does not change any thread. -/
theorem lookupThread_putRateLimit (db : DB) (key : String) (rec : RateLimitRecord)
    (sid : String) :
    lookupThread (putRateLimit db key rec) sid = lookupThread db sid := rfl

/-- Writing a context item does not change any thread. -/
theorem lookupThread_putContextItem (db : DB) (uid key : String)
    (item : UserContextItem) (sid : String) :
    lookupThread (putContextItem db uid key item) sid = lookupThread db sid := rfl

/-- C3: for every successful chat turn, the reported
`conversation_length` equals the number of messages in the session's
thread after this turn (the prior thread plus the new user and assistant
messages); a rate-limit record with `expires_at = now + 4 hours` and
`set_at = now` is written, overwriting any previous record for that
user, exactly when `conversation_length > 10`; otherwise no record is
written and the response reports `rate_limited = false` with no
expiry. -/
theorem C3_conversation_length_and_rate_limit_apply (msg : String)
    (m : Option String) (sid uid : String) (db : DB) (now : Nat)
    (ctx : Except String (List UserContextItem))
    (llm : List Message → Except String String) (newKey reply : String)
    (resp : ChatResponse) (db2 : DB)
    (hu : uid.isEmpty = false) (hm : msg.isEmpty = false)
    (hs : sid.isEmpty = false)
    (hmt : pyLower (m.getD "gpt") = "gpt" ∨ pyLower (m.getD "gpt") = "claude")
    (hlen : msg.length ≤ 10000)
    (hnolimit : searchRateLimits db uid = [])
    (hllm : llm ((lookupThread db sid).getD [] ++
        [{ type := MsgType.human,
           content := enhanceMessage (get_stored_context ctx) msg }]) =
      Except.ok reply)
    (hres : chat_endpoint
        { message := some msg, model := m, session_id := some sid,
          user_id := some uid } db now ctx llm newKey = (resp, db2)) :
    resp.status_code = 200 ∧
    resp.conversation_length = some ((lookupThread db2 sid).getD []).length ∧
    resp.conversation_length =
      some (((lookupThread db sid).getD []).length + 2) ∧
    (10 < ((lookupThread db sid).getD []).length + 2 →
      db2.rateLimits =
        (uid, { user_id := uid,
                conversation_length := ((lookupThread db sid).getD []).length + 2,
                expires_at := now + 4 * 3600, set_at := now }) ::
          db.rateLimits.filter (fun p => p.1 != uid) ∧
      resp.rate_limited = some true ∧
      resp.expires_at = some (now + 4 * 3600)) ∧
    (((lookupThread db sid).getD []).length + 2 ≤ 10 →
      db2.rateLimits = db.rateLimits ∧
      resp.rate_limited = some false ∧
      resp.expires_at = none) := by
  rw [chat_endpoint_valid msg m sid uid db now ctx llm newKey hu hm hs hmt hlen]
    at hres
  simp only [chatRateLimitStage, hnolimit] at hres
  rw [chatProceed_ok uid sid msg (pyLower (m.getD "gpt")) db now ctx llm newKey
    reply hllm] at hres
  simp only [List.length_append, List.length_cons, List.length_nil] at hres
  by_cases hL : 10 < ((lookupThread db sid).getD []).length + 2
  · have hL' : 10 < ((lookupThread db sid).getD []).length + (0 + 1 + 1) := by
      omega
    rw [if_pos hL'] at hres
    obtain ⟨h1, h2⟩ := Prod.mk.inj hres
    subst h1
    subst h2
    refine ⟨rfl, ?_, ?_, fun _ => ⟨?_, rfl, rfl⟩, fun hc => absurd hL (by omega)⟩
    · simp [lookupThread_putRateLimit, lookupThread_putContextItem,
        lookupThread_setThread]
    · simp
    · simp [putRateLimit, putContextItem, setThread]
  · have hL' : ¬ 10 < ((lookupThread db sid).getD []).length + (0 + 1 + 1) := by
      omega
    rw [if_neg hL'] at hres
    obtain ⟨h1, h2⟩ := Prod.mk.inj hres
    subst h1
    subst h2
    refine ⟨rfl, ?_, ?_, fun hc => absurd hc hL, fun _ => ⟨?_, rfl, rfl⟩⟩
    · simp [lookupThread_putContextItem, lookupThread_setThread]
    · simp
    · simp [putContextItem, setThread]

/-- Witness for C3: a turn on a thread of 9 prior messages reaches
`conversation_length` 11 and triggers the rate limit. -/
theorem C3_witness :
    (chat_endpoint
        { message := some "hi", model := some "gpt",
          session_id := some "s1", user_id := some "u1" }
        { rateLimits := [], contextItems := [],
          threads :=
            [("s1", List.replicate 9 { type := MsgType.human, content := "x" })] }
        0 (Except.ok []) (fun _ => Except.ok "r") "k").1.status_code = 200 ∧
    (chat_endpoint
        { message := some "hi", model := some "gpt",
          session_id := some "s1", user_id := some "u1" }
        { rateLimits := [], contextItems := [],
          threads :=
            [("s1", List.replicate 9 { type := MsgType.human, content := "x" })] }
        0 (Except.ok []) (fun _ => Except.ok "r") "k").1.conversation_length =
      some 11 ∧
    (chat_endpoint
        { message := some "hi", model := some "gpt",
          session_id := some "s1", user_id := some "u1" }
        { rateLimits := [], contextItems := [],
          threads :=
            [("s1", List.replicate 9 { type := MsgType.human, content := "x" })] }
        0 (Except.ok []) (fun _ => Except.ok "r") "k").1.rate_limited =
      some true := by
  refine ⟨?_, ?_, ?_⟩
  · exact (C3_conversation_length_and_rate_limit_apply "hi" (some "gpt") "s1" "u1"
      { rateLimits := [], contextItems := [],
        threads :=
          [("s1", List.replicate 9 { type := MsgType.human, content := "x" })] }
      0 (Except.ok []) (fun _ => Except.ok "r") "k" "r" _ _
      rfl rfl rfl (Or.inl rfl) (by decide) rfl rfl rfl).1
  · exact (C3_conversation_length_and_rate_limit_apply "hi" (some "gpt") "s1" "u1"
      { rateLimits := [], contextItems := [],
        threads :=
          [("s1", List.replicate 9 { type := MsgType.human, content := "x" })] }
      0 (Except.ok []) (fun _ => Except.ok "r") "k" "r" _ _
      rfl rfl rfl (Or.inl rfl) (by decide) rfl rfl rfl).2.2.1
  · exact ((C3_conversation_length_and_rate_limit_apply "hi" (some "gpt") "s1" "u1"
      { rateLimits := [], contextItems := [],
        threads :=
          [("s1", List.replicate 9 { type := MsgType.human, content := "x" })] }
      0 (Except.ok []) (fun _ => Except.ok "r") "k" "r" _ _
      rfl rfl rfl (Or.inl rfl) (by decide) rfl rfl rfl).2.2.2.1 (by decide)).2.1

/-- Filtering cannot resurrect elements: if no element of `l` satisfies
`p`, none of a sublist obtained by another filter does either. -/
theorem filter_filter_nil {α : Type} (p q : α → Bool) (l : List α)
    (h : l.filter p = []) : (l.filter q).filter p = [] := by
  rw [List.filter_filter, List.filter_eq_nil_iff]
  rw [List.filter_eq_nil_iff] at h
  intro a ha
  simp [h a ha]

/-- C8: for every successful chat turn, the message recorded for the
model (the new human message of the thread) is the original message
prefixed with a labeled block of the retrieved snippets and a
"Current question" label when the retrieved context is non-empty, and
the unmodified message otherwise; the persisted `UserContextItem` holds
the original message, the timestamp and the session id under the fresh
key; and the reply is returned. -/
theorem C8_enrichment_and_persistence (msg : String) (m : Option String)
    (sid uid : String) (db : DB) (now : Nat)
    (ctx : Except String (List UserContextItem))
    (llm : List Message → Except String String) (newKey reply : String)
    (resp : ChatResponse) (db2 : DB)
    (hu : uid.isEmpty = false) (hm : msg.isEmpty = false)
    (hs : sid.isEmpty = false)
    (hmt : pyLower (m.getD "gpt") = "gpt" ∨ pyLower (m.getD "gpt") = "claude")
    (hlen : msg.length ≤ 10000)
    (hnolimit : searchRateLimits db uid = [])
    (hfresh : db.contextItems.filter (fun t => t.2.1 == newKey) = [])
    (hllm : llm ((lookupThread db sid).getD [] ++
        [{ type := MsgType.human,
           content := enhanceMessage (get_stored_context ctx) msg }]) =
      Except.ok reply)
    (hres : chat_endpoint
        { message := some msg, model := m, session_id := some sid,
          user_id := some uid } db now ctx llm newKey = (resp, db2)) :
    (get_stored_context ctx ≠ [] →
      enhanceMessage (get_stored_context ctx) msg =
        "Previous relevant context:\n" ++ bulletLines (get_stored_context ctx) ++
          "\n\nCurrent question: " ++ msg) ∧
    (get_stored_context ctx = [] →
      enhanceMessage (get_stored_context ctx) msg = msg) ∧
    lookupThread db2 sid =
      some ((lookupThread db sid).getD [] ++
        [{ type := MsgType.human,
           content := enhanceMessage (get_stored_context ctx) msg },
         { type := MsgType.ai, content := reply }]) ∧
    db2.contextItems.filter (fun t => t.2.1 == newKey) =
      [(uid, newKey, { data := msg, timestamp := now, session_id := sid })] ∧
    resp.message = some reply := by
  rw [chat_endpoint_valid msg m sid uid db now ctx llm newKey hu hm hs hmt hlen]
    at hres
  simp only [chatRateLimitStage, hnolimit] at hres
  rw [chatProceed_ok uid sid msg (pyLower (m.getD "gpt")) db now ctx llm newKey
    reply hllm] at hres
  have htail : ((db.contextItems.filter
      (fun t => !(t.1 == uid && t.2.1 == newKey))).filter
        (fun t => t.2.1 == newKey)) = [] :=
    filter_filter_nil _ _ _ hfresh
  refine ⟨?_, ?_, ?_⟩
  · intro h
    cases hc : get_stored_context ctx with
    | nil => exact absurd hc h
    | cons a l => simp [enhanceMessage, hc]
  · refine fun h => by simp [enhanceMessage, h]
  · by_cases hL : 10 <
        ((lookupThread db sid).getD [] ++
          ([{ type := MsgType.human,
              content := enhanceMessage (get_stored_context ctx) msg },
            { type := MsgType.ai, content := reply }] : List Message)).length
    · rw [if_pos hL] at hres
      obtain ⟨h1, h2⟩ := Prod.mk.inj hres
      subst h1
      subst h2
      refine ⟨?_, ?_, rfl⟩
      · simp [lookupThread_putRateLimit, lookupThread_putContextItem,
          lookupThread_setThread]
      · simp [putRateLimit, putContextItem, setThread, List.filter_cons, htail]
        intro a a1 b hmem hk
        exact absurd hk
          (by simpa using (List.filter_eq_nil_iff.1 hfresh) _ hmem)
    · rw [if_neg hL] at hres
      obtain ⟨h1, h2⟩ := Prod.mk.inj hres
      subst h1
      subst h2
      refine ⟨?_, ?_, rfl⟩
      · simp [lookupThread_putContextItem, lookupThread_setThread]
      · simp [putContextItem, setThread, List.filter_cons, htail]
        intro a a1 b hmem hk
        exact absurd hk
          (by simpa using (List.filter_eq_nil_iff.1 hfresh) _ hmem)

/-- Witness for C8: with one retrieved snippet the enriched prompt is
the labeled block followed by the question, and the persisted item holds
the original message under the fresh key. -/
theorem C8_witness :
    enhanceMessage
        (get_stored_context (Except.ok
          [{ data := "prev msg", timestamp := 0, session_id := "s0" }]))
        "What?" =
      "Previous relevant context:\n- prev msg\n\nCurrent question: What?" ∧
    ((chat_endpoint
        { message := some "What?", model := some "gpt",
          session_id := some "s1", user_id := some "u1" }
        { rateLimits := [], contextItems := [], threads := [] } 0
        (Except.ok [{ data := "prev msg", timestamp := 0, session_id := "s0" }])
        (fun _ => Except.ok "r") "k1").2.contextItems.filter
          (fun t => t.2.1 == "k1")) =
      [("u1", "k1", { data := "What?", timestamp := 0, session_id := "s1" })] := by
  constructor
  · exact (C8_enrichment_and_persistence "What?" (some "gpt") "s1" "u1"
      { rateLimits := [], contextItems := [], threads := [] } 0
      (Except.ok [{ data := "prev msg", timestamp := 0, session_id := "s0" }])
      (fun _ => Except.ok "r") "k1" "r" _ _
      rfl rfl rfl (Or.inl rfl) (by decide) rfl rfl rfl rfl).1 (by decide)
  · exact (C8_enrichment_and_persistence "What?" (some "gpt") "s1" "u1"
      { rateLimits := [], contextItems := [], threads := [] } 0
      (Except.ok [{ data := "prev msg", timestamp := 0, session_id := "s0" }])
      (fun _ => Except.ok "r") "k1" "r" _ _
      rfl rfl rfl (Or.inl rfl) (by decide) rfl rfl rfl rfl).2.2.2.1

/-- Counterexample to C1 as stated: a validated chat request whose model
invocation raises an exception gets a response body whose `detail` field
contains the exception's own text verbatim — the underlying internal
detail IS exposed to the caller. -/
theorem C1_counterexample :
    (chat_endpoint
        { message := some "hi", model := some "gpt",
          session_id := some "s1", user_id := some "u1" }
        { rateLimits := [], contextItems := [], threads := [] } 0
        (Except.ok [])
        (fun _ => Except.error
          "connection to server at 10.0.0.5 failed: password authentication failed")
        "k1").1.detail =
      some
        "connection to server at 10.0.0.5 failed: password authentication failed" :=
  rfl

/-- C1 amended: for every validated chat request that passes the
rate-limit gate, an exception raised by the model invocation is caught
and the `error` field of the 500 response is only the generic
"An error occurred during chat" — but the response body also carries the
exception's text in its `detail` field, and the stores are left
unchanged. -/
theorem C1_generic_error_with_detail_field (msg : String) (m : Option String)
    (sid uid : String) (db : DB) (now : Nat)
    (ctx : Except String (List UserContextItem))
    (llm : List Message → Except String String) (newKey e : String)
    (hu : uid.isEmpty = false) (hm : msg.isEmpty = false)
    (hs : sid.isEmpty = false)
    (hmt : pyLower (m.getD "gpt") = "gpt" ∨ pyLower (m.getD "gpt") = "claude")
    (hlen : msg.length ≤ 10000)
    (hnolimit : searchRateLimits db uid = [])
    (hllm : llm ((lookupThread db sid).getD [] ++
        [{ type := MsgType.human,
           content := enhanceMessage (get_stored_context ctx) msg }]) =
      Except.error e) :
    chat_endpoint
        { message := some msg, model := m, session_id := some sid,
          user_id := some uid } db now ctx llm newKey =
      ({ status_code := 500, status := "error",
         error := some "An error occurred during chat",
         detail := some e, rate_limited := some false }, db) := by
  rw [chat_endpoint_valid msg m sid uid db now ctx llm newKey hu hm hs hmt hlen]
  simp only [chatRateLimitStage, hnolimit]
  simp [chatProceed, hllm]

/-- Witness for the amended C1: the failing model call of the
counterexample input yields exactly the 500 body with the generic error
and the exception text in `detail`. -/
theorem C1_witness :
    chat_endpoint
        { message := some "hi", model := some "gpt",
          session_id := some "s1", user_id := some "u1" }
        { rateLimits := [], contextItems := [], threads := [] } 0
        (Except.ok []) (fun _ => Except.error "boom") "k1" =
      ({ status_code := 500, status := "error",
         error := some "An error occurred during chat",
         detail := some "boom", rate_limited := some false },
       { rateLimits := [], contextItems := [], threads := [] }) :=
  C1_generic_error_with_detail_field "hi" (some "gpt") "s1" "u1"
    { rateLimits := [], contextItems := [], threads := [] } 0 (Except.ok [])
    (fun _ => Except.error "boom") "k1" "boom"
    rfl rfl rfl (Or.inl rfl) (by decide) rfl rfl

/-- C9: for every clear-history request the rate-limit staleness check
of the chat path runs first: with an unexpired record the clear is
refused with 429 and the stores (hence the session's thread) are
unchanged; with a stale record the record is purged and the entire
thread deleted; with no record the entire thread is deleted.  After a
deletion the checkpointer reports no thread for the session. -/
theorem C9_clear_history_rate_limit_gate (sid uid : String) (db : DB)
    (now : Nat) (k0 : String) (rec : RateLimitRecord)
    (rest : List (String × RateLimitRecord)) (hs : sid.isEmpty = false) :
    (searchRateLimits db uid = (k0, rec) :: rest → now < rec.expires_at →
      clear_history_endpoint (some sid) uid db now =
        ({ status_code := 429, status := "error",
           error := some "Cannot clear history while rate limited.",
           rate_limited := some true, expires_at := some rec.expires_at }, db)) ∧
    (searchRateLimits db uid = (k0, rec) :: rest → rec.expires_at ≤ now →
      clear_history_endpoint (some sid) uid db now =
        ({ status_code := 200, status := "success",
           message := some "Session history cleared",
           session_id := some sid, rate_limited := some false },
         deleteThread (deleteRateLimit db uid) sid)) ∧
    (searchRateLimits db uid = [] →
      clear_history_endpoint (some sid) uid db now =
        ({ status_code := 200, status := "success",
           message := some "Session history cleared",
           session_id := some sid, rate_limited := some false },
         deleteThread db sid)) ∧
    (∀ db2 : DB, lookupThread (deleteThread db2 sid) sid = none) := by
  refine ⟨?_, ?_, ?_, fun db2 => lookupThread_deleteThread db2 sid⟩
  · intro hfind hlt
    simp [clear_history_endpoint, isBlank, hs, hfind, hlt]
  · intro hfind hge
    have hnlt : ¬ now < rec.expires_at := Nat.not_lt.2 hge
    simp [clear_history_endpoint, isBlank, hs, hfind, hnlt]
  · intro hfind
    simp [clear_history_endpoint, isBlank, hs, hfind]

/-- Witness for C9: a user limited until t=10000 cannot clear the thread
at t=50 (429, database untouched); at t=20000 the stale record and the
whole thread are deleted. -/
theorem C9_witness :
    clear_history_endpoint (some "s1") "u1"
        { rateLimits :=
            [("u1", { user_id := "u1", conversation_length := 12,
                      expires_at := 10000, set_at := 0 })],
          contextItems := [],
          threads := [("s1", [{ type := MsgType.human, content := "A" }])] } 50 =
      ({ status_code := 429, status := "error",
         error := some "Cannot clear history while rate limited.",
         rate_limited := some true, expires_at := some 10000 },
       { rateLimits :=
           [("u1", { user_id := "u1", conversation_length := 12,
                     expires_at := 10000, set_at := 0 })],
         contextItems := [],
         threads := [("s1", [{ type := MsgType.human, content := "A" }])] }) ∧
    clear_history_endpoint (some "s1") "u1"
        { rateLimits :=
            [("u1", { user_id := "u1", conversation_length := 12,
                      expires_at := 10000, set_at := 0 })],
          contextItems := [],
          threads := [("s1", [{ type := MsgType.human, content := "A" }])] }
        20000 =
      ({ status_code := 200, status := "success",
         message := some "Session history cleared",
         session_id := some "s1", rate_limited := some false },
       { rateLimits := [], contextItems := [], threads := [] }) := by
  constructor
  · exact (C9_clear_history_rate_limit_gate "s1" "u1"
      { rateLimits :=
          [("u1", { user_id := "u1", conversation_length := 12,
                    expires_at := 10000, set_at := 0 })],
        contextItems := [],
        threads := [("s1", [{ type := MsgType.human, content := "A" }])] }
      50 "u1"
      { user_id := "u1", conversation_length := 12,
        expires_at := 10000, set_at := 0 } [] rfl).1 rfl (by decide)
  · exact (C9_clear_history_rate_limit_gate "s1" "u1"
      { rateLimits :=
          [("u1", { user_id := "u1", conversation_length := 12,
                    expires_at := 10000, set_at := 0 })],
        contextItems := [],
        threads := [("s1", [{ type := MsgType.human, content := "A" }])] }
      20000 "u1"
      { user_id := "u1", conversation_length := 12,
        expires_at := 10000, set_at := 0 } [] rfl).2.1 rfl (by decide)

/-- The deletion loop of `clear_user_data_endpoint`: starting from a
counter `n`, deleting each listed key counts one per item and leaves
exactly the entries whose key is not listed (within the user's
namespace); the other namespaces are untouched. -/
theorem clearLoop_spec (uid : String) (items : List (String × UserContextItem))
    (db0 : DB) (n : Nat) :
    (items.foldl (fun acc item => (deleteContextItem acc.1 uid item.1, acc.2 + 1))
        (db0, n)).2 = n + items.length ∧
    (items.foldl (fun acc item => (deleteContextItem acc.1 uid item.1, acc.2 + 1))
        (db0, n)).1.contextItems =
      db0.contextItems.filter
        (fun t => !(t.1 == uid && (items.map Prod.fst).contains t.2.1)) ∧
    (items.foldl (fun acc item => (deleteContextItem acc.1 uid item.1, acc.2 + 1))
        (db0, n)).1.rateLimits = db0.rateLimits ∧
    (items.foldl (fun acc item => (deleteContextItem acc.1 uid item.1, acc.2 + 1))
        (db0, n)).1.threads = db0.threads := by
  induction items generalizing db0 n with
  | nil => simp
  | cons hd tl ih =>
    simp only [List.foldl_cons, List.map_cons, List.length_cons]
    obtain ⟨ihc, ihi, ihr, iht⟩ := ih (deleteContextItem db0 uid hd.1) (n + 1)
    refine ⟨by rw [ihc]; omega, ?_, by rw [ihr]; rfl, by rw [iht]; rfl⟩
    rw [ihi]
    show (db0.contextItems.filter
        (fun t => !(t.1 == uid && t.2.1 == hd.1))).filter
          (fun t => !(t.1 == uid && (tl.map Prod.fst).contains t.2.1)) = _
    rw [List.filter_filter]
    refine List.filter_congr fun t _ => ?_
    rw [List.contains_cons]
    cases h1 : t.1 == uid <;> cases h2 : t.2.1 == hd.1 <;>
      cases h3 : (tl.map Prod.fst).contains t.2.1 <;> rfl

/-- C5: `clear_user_data` deletes every `UserContextItem` in the user's
namespace, returns exactly the count of items present beforehand, and
leaves other users' items, the rate-limit namespace and the checkpoint
threads unchanged. -/
theorem C5_clear_user_data_exact (uid : String) (db : DB)
    (hu : uid.isEmpty = false) :
    (clear_user_data_endpoint (some uid) db).1.status_code = 200 ∧
    (clear_user_data_endpoint (some uid) db).1.deleted_count =
      some (userItemsOf db uid).length ∧
    (clear_user_data_endpoint (some uid) db).2.contextItems =
      db.contextItems.filter (fun t => t.1 != uid) ∧
    userItemsOf (clear_user_data_endpoint (some uid) db).2 uid = [] ∧
    (∀ uid2, uid2 ≠ uid →
      userItemsOf (clear_user_data_endpoint (some uid) db).2 uid2 =
        userItemsOf db uid2) ∧
    (clear_user_data_endpoint (some uid) db).2.rateLimits = db.rateLimits ∧
    (clear_user_data_endpoint (some uid) db).2.threads = db.threads := by
  obtain ⟨hc, hi, hr, ht⟩ := clearLoop_spec uid (userItemsOf db uid) db 0
  have hend2 : (clear_user_data_endpoint (some uid) db).2 =
      ((userItemsOf db uid).foldl
        (fun acc item => (deleteContextItem acc.1 uid item.1, acc.2 + 1))
        (db, 0)).1 := by
    simp [clear_user_data_endpoint, isBlank, hu]
  have hend1c : (clear_user_data_endpoint (some uid) db).1.deleted_count =
      some ((userItemsOf db uid).foldl
        (fun acc item => (deleteContextItem acc.1 uid item.1, acc.2 + 1))
        (db, 0)).2 := by
    simp [clear_user_data_endpoint, isBlank, hu]
  have hfilter : db.contextItems.filter
      (fun t => !(t.1 == uid &&
        ((userItemsOf db uid).map Prod.fst).contains t.2.1)) =
      db.contextItems.filter (fun t => t.1 != uid) := by
    refine List.filter_congr fun t htmem => ?_
    cases h1 : t.1 == uid
    · simp [bne, h1]
    · have hstep : t.2 ∈ userItemsOf db uid :=
        List.mem_map.2 ⟨t, List.mem_filter.2 ⟨htmem, h1⟩, rfl⟩
      have hmem : t.2.1 ∈ (userItemsOf db uid).map Prod.fst :=
        List.mem_map.2 ⟨t.2, hstep, rfl⟩
      have hcon : ((userItemsOf db uid).map Prod.fst).contains t.2.1 = true :=
        List.elem_iff.2 hmem
      simp [bne, h1, hcon]
      exact ⟨t.2.2, hstep⟩
  have hitems : (clear_user_data_endpoint (some uid) db).2.contextItems =
      db.contextItems.filter (fun t => t.1 != uid) := by
    rw [hend2, hi, hfilter]
  have hnil : (db.contextItems.filter (fun t => t.1 != uid)).filter
      (fun t => t.1 == uid) = [] := by
    rw [List.filter_eq_nil_iff]
    intro t htm hq
    exact bne_iff_ne.1 (List.mem_filter.1 htm).2 (beq_iff_eq.1 hq)
  refine ⟨?_, ?_, hitems, ?_, ?_, ?_, ?_⟩
  · simp [clear_user_data_endpoint, isBlank, hu]
  · rw [hend1c, hc]
    simp
  · unfold userItemsOf
    rw [hitems, hnil]
    rfl
  · intro uid2 hne
    unfold userItemsOf
    rw [hitems]
    rw [List.filter_filter]
    refine congrArg (List.map (fun t : String × String × UserContextItem => t.2))
      (List.filter_congr fun t _ => ?_)
    show ((t.1 == uid2) && (t.1 != uid)) = (t.1 == uid2)
    cases h1 : t.1 == uid2
    · rfl
    · have hneq : t.1 ≠ uid := by
        rw [beq_iff_eq.1 h1]
        exact hne
      simp [bne_iff_ne.2 hneq]
  · rw [hend2]
    exact hr
  · rw [hend2]
    exact ht

/-- Witness for C5: with two items of user u1 and one of u2, clearing u1
reports a count of 2, leaves u2's item, and keeps the other
namespaces. -/
theorem C5_witness :
    (clear_user_data_endpoint (some "u1")
        { rateLimits := [],
          contextItems :=
            [("u1", "a", { data := "m1", timestamp := 1, session_id := "s" }),
             ("u2", "b", { data := "m2", timestamp := 2, session_id := "s" }),
             ("u1", "c", { data := "m3", timestamp := 3, session_id := "s" })],
          threads := [] }).1.deleted_count = some 2 ∧
    (clear_user_data_endpoint (some "u1")
        { rateLimits := [],
          contextItems :=
            [("u1", "a", { data := "m1", timestamp := 1, session_id := "s" }),
             ("u2", "b", { data := "m2", timestamp := 2, session_id := "s" }),
             ("u1", "c", { data := "m3", timestamp := 3, session_id := "s" })],
          threads := [] }).2.contextItems =
      [("u2", "b", { data := "m2", timestamp := 2, session_id := "s" })] := by
  constructor
  · exact (C5_clear_user_data_exact "u1"
      { rateLimits := [],
        contextItems :=
          [("u1", "a", { data := "m1", timestamp := 1, session_id := "s" }),
           ("u2", "b", { data := "m2", timestamp := 2, session_id := "s" }),
           ("u1", "c", { data := "m3", timestamp := 3, session_id := "s" })],
        threads := [] } rfl).2.1
  · exact (C5_clear_user_data_exact "u1"
      { rateLimits := [],
        contextItems :=
          [("u1", "a", { data := "m1", timestamp := 1, session_id := "s" }),
           ("u2", "b", { data := "m2", timestamp := 2, session_id := "s" }),
           ("u1", "c", { data := "m3", timestamp := 3, session_id := "s" })],
        threads := [] } rfl).2.2.1

end AdaptiveHealth
